import Mathlib

/-!
Shallow embedding of `src/js/main.js` (MVPfolio), a client-side enhancement
layer for a static portfolio page. The modules ThemeToggle, SmoothScroll,
ScrollReveal and MobileMenu are modelled as pure functions over explicit
state records; browser APIs (localStorage, matchMedia, querySelector,
scrollTo, history, IntersectionObserver) become fields of the state or
function parameters. JS nullable strings become `Option String`; JS
truthiness of such a value (null and the empty string are falsy) is made
explicit.
-/

namespace MVPfolio

/-- JS truthiness of a nullable string: `null` and `""` are falsy. -/
def jsTruthy : Option String → Bool
  | none => false
  | some s => s ≠ ""

/-- JS `a || b` on a nullable string `a` and string `b`: the value of `a`
when it is truthy, else `b`. -/
def jsOrString : Option String → String → String
  | none, d => d
  | some s, d => if s = "" then d else s

/-! ## ThemeToggle module (main.js lines 12-85) -/

/-- State touched by the `ThemeToggle` module: the localStorage slot under
key `theme-preference`, availability of localStorage (its absence makes
reads throw, which `getSavedTheme` catches, and writes throw, which
`setTheme` swallows), the `data-theme` attribute of the document root, the
presence of a `[data-theme-toggle]` element and its `aria-label`, and the
environment's `(prefers-color-scheme: dark)` answer. -/
structure ThemeState where
  storage : Option String
  storageOk : Bool
  dataTheme : Option String
  hasToggle : Bool
  ariaLabel : Option String
  systemDark : Bool
deriving DecidableEq, Repr

/-- `ThemeToggle.getSavedTheme` (lines 36-42): `localStorage.getItem`
wrapped in try/catch returning `null` on error. -/
def getSavedTheme (st : ThemeState) : Option String :=
  if st.storageOk then st.storage else none

/-- `ThemeToggle.getSystemTheme` (lines 44-49): `'dark'` when the media
query `(prefers-color-scheme: dark)` matches, else `'light'`. -/
def getSystemTheme (st : ThemeState) : String :=
  if st.systemDark then "dark" else "light"

/-- `ThemeToggle.setTheme` (lines 51-67): set the `data-theme` attribute;
when `save`, best-effort `localStorage.setItem` (failure swallowed); update
the toggle's `aria-label` when the toggle exists. The source performs the
three mutations in sequence (attribute, storage, label); none reads a value
another writes, so they are given as one record update. -/
def setTheme (st : ThemeState) (theme : String) (save : Bool) : ThemeState :=
  { st with
    dataTheme := some theme,
    storage := if save && st.storageOk then some theme else st.storage,
    ariaLabel := if st.hasToggle then
        some (if theme = "dark" then "Switch to light mode" else "Switch to dark mode")
      else st.ariaLabel }

/-- `ThemeToggle.toggleTheme` (lines 69-73): read the current `data-theme`
attribute, flip `'dark'` to `'light'` and anything else to `'dark'`, apply
with persistence. -/
def toggleTheme (st : ThemeState) : ThemeState :=
  let currentTheme := st.dataTheme
  let newTheme := if currentTheme = some "dark" then "light" else "dark"
  setTheme st newTheme true

/-- Theme-resolution part of `ThemeToggle.init` (lines 20-25):
`savedTheme || systemTheme` applied with `save = false`. -/
def themeInit (st : ThemeState) : ThemeState :=
  let savedTheme := getSavedTheme st
  let systemTheme := getSystemTheme st
  let initialTheme := jsOrString savedTheme systemTheme
  setTheme st initialTheme false

/-- The change handler registered by `ThemeToggle.watchSystemTheme`
(lines 75-84): when `getSavedTheme()` is falsy, apply the event's new
system theme without persisting; otherwise do nothing. `eMatches` is the
event's `matches` field. -/
def onSystemChange (st : ThemeState) (eMatches : Bool) : ThemeState :=
  if !(jsTruthy (getSavedTheme st)) then
    setTheme st (if eMatches then "dark" else "light") false
  else st

/-! ## SmoothScroll module (main.js lines 90-122) -/

/-- A DOM element as seen by `SmoothScroll.handleClick`: only
`getBoundingClientRect().top` is read. -/
structure Elem where
  top : Int
deriving DecidableEq, Repr

/-- One `window.scrollTo({top, behavior})` call. -/
structure ScrollCall where
  top : Int
  smooth : Bool
deriving DecidableEq, Repr

/-- Page state touched by `SmoothScroll.handleClick`: current
`window.pageYOffset`, the address fragment (last `history.pushState` URL),
the log of `window.scrollTo` calls, and whether `e.preventDefault()` was
called. -/
structure PageState where
  pageYOffset : Int
  fragment : Option String
  scrollCalls : List ScrollCall
  defaultPrevented : Bool
deriving DecidableEq, Repr

/-- `SmoothScroll.HEADER_OFFSET` (line 91). -/
def HEADER_OFFSET : Int := 80

/-- `SmoothScroll.handleClick` (lines 100-121). `query` models
`document.querySelector`: per the DOM standard it throws (here
`Except.error ()`) on a string that is not a valid selector, and otherwise
returns the matched element or `null`. `href` is
`anchor.getAttribute('href')`. The source calls `query` outside any
try/catch, so a `query` error propagates out of the handler. -/
def handleClick (query : String → Except Unit (Option Elem))
    (href : Option String) (st : PageState) : Except Unit PageState :=
  if !(jsTruthy href) then Except.ok st
  else if href = some "#" then Except.ok st
  else
    let hrefS := href.getD ""
    match query hrefS with
    | Except.error e => Except.error e
    | Except.ok none => Except.ok st
    | Except.ok (some target) =>
        let targetPosition := target.top + st.pageYOffset
        let offsetPosition := targetPosition - HEADER_OFFSET
        Except.ok { st with
          defaultPrevented := true,
          scrollCalls := st.scrollCalls ++ [{ top := offsetPosition, smooth := true }],
          fragment := some hrefS }

/-! ## ScrollReveal module (main.js lines 127-163) -/

/-- An element as seen by `ScrollReveal`: identified by `id`,
`isCandidate` means it matches `.reveal, .stagger-children`, `revealed`
means its class list contains `revealed`. -/
structure RElem where
  id : Nat
  isCandidate : Bool
  revealed : Bool
deriving DecidableEq, Repr

/-- State of the `ScrollReveal` module: the page's elements, the
`(prefers-reduced-motion: reduce)` answer, whether an
`IntersectionObserver` was constructed, the set of element ids currently
observed, and the log of `observer.observe` calls. -/
structure RevealState where
  elems : List RElem
  reducedMotion : Bool
  observerCreated : Bool
  observed : List Nat
  observeCalls : List Nat
deriving DecidableEq, Repr

/-- `ScrollReveal.init` (lines 128-152): with reduced motion, add the
`revealed` class to every candidate and return without touching the
observer; otherwise construct the observer and observe every candidate. -/
def scrollRevealInit (st : RevealState) : RevealState :=
  if st.reducedMotion then
    { st with elems :=
        st.elems.map (fun e => if e.isCandidate then { e with revealed := true } else e) }
  else
    { st with
      observerCreated := true,
      observed := st.observed ++ ((st.elems.filter (fun e => e.isCandidate)).map (fun e => e.id)),
      observeCalls :=
        st.observeCalls ++ ((st.elems.filter (fun e => e.isCandidate)).map (fun e => e.id)) }

/-- One `IntersectionObserverEntry`: the id of `entry.target` and
`entry.isIntersecting`. -/
structure IEntry where
  targetId : Nat
  isIntersecting : Bool
deriving DecidableEq, Repr

/-- Body of the `entries.forEach` in `ScrollReveal.handleIntersection`
(lines 155-161): when the entry is intersecting, add class `revealed` to
its target and `unobserve` the target. -/
def revealStep (st : RevealState) (entry : IEntry) : RevealState :=
  if entry.isIntersecting then
    { st with
      elems := st.elems.map
        (fun el => if el.id = entry.targetId then { el with revealed := true } else el),
      observed := st.observed.filter (fun i => i ≠ entry.targetId) }
  else st

/-- `ScrollReveal.handleIntersection` (lines 154-162): `entries.forEach`
over the batch. -/
def handleIntersection (st : RevealState) (entries : List IEntry) : RevealState :=
  entries.foldl revealStep st

/-- Whether the element with id `i` carries the `revealed` class. -/
def isRevealed (st : RevealState) (i : Nat) : Bool :=
  st.elems.any (fun e => e.id = i && e.revealed)

/-! ## MobileMenu module (main.js lines 230-263) -/

/-- State of the `MobileMenu` module: whether the menu panel has class
`is-open`, and the toggle control's `aria-expanded` attribute (absent when
never set). -/
structure MenuState where
  isOpen : Bool
  ariaExpanded : Option String
deriving DecidableEq, Repr

/-- `MobileMenu.closeMenu` (lines 259-262): remove class `is-open` and set
`aria-expanded` to `"false"`, unconditionally. -/
def closeMenu (st : MenuState) : MenuState :=
  { st with isOpen := false, ariaExpanded := some "false" }

/-- `MobileMenu.toggleMenu` (lines 254-257): `classList.toggle('is-open')`
and mirror the resulting boolean into `aria-expanded`. -/
def toggleMenu (st : MenuState) : MenuState :=
  let isOpen := !st.isOpen
  { st with isOpen := isOpen, ariaExpanded := some (if isOpen then "true" else "false") }

/-- The document-level click handler registered by `MobileMenu.init`
(lines 240-244): when the click target is inside neither the menu nor the
toggle, call `closeMenu`; otherwise do nothing. -/
def onDocumentClick (st : MenuState) (insideMenu insideToggle : Bool) : MenuState :=
  if !insideMenu && !insideToggle then closeMenu st else st

/-- A fresh browser state with no persisted value, working storage and a
dark system preference; used to instantiate theorems with hypotheses. -/
def stFreshDark : ThemeState :=
  { storage := none, storageOk := true, dataTheme := none,
    hasToggle := false, ariaLabel := none, systemDark := true }

/-- A state whose persisted slot holds the corrupted value `purple`
(neither `light` nor `dark`) while the system prefers dark. -/
def stCorrupted : ThemeState :=
  { storage := some "purple", storageOk := true, dataTheme := none,
    hasToggle := false, ariaLabel := none, systemDark := true }

/-- A state in the middle of a session: applied theme `light`, persisted
`light`, working storage. -/
def stLight : ThemeState :=
  { storage := some "light", storageOk := true, dataTheme := some "light",
    hasToggle := true, ariaLabel := none, systemDark := true }

/-- `document.querySelector` on a concrete page containing one element
with id `section2` at top offset 500. Per the DOM standard the selector
string `#1` is invalid (a CSS identifier cannot start with a digit), so
the query throws on it; the other fragments queried here are valid
selectors that match nothing. -/
def pageQuery : String → Except Unit (Option Elem) :=
  fun s =>
    if s = "#1" then Except.error ()
    else if s = "#section2" then Except.ok (some { top := 500 })
    else Except.ok none

/-- A concrete page scroll state before any click. -/
def page0 : PageState :=
  { pageYOffset := 100, fragment := none, scrollCalls := [],
    defaultPrevented := false }

/-- A concrete page for `ScrollReveal` with reduced motion active: three
elements, two of them candidates, none yet revealed, nothing observed. -/
def revealPage : RevealState :=
  { elems := [{ id := 0, isCandidate := true, revealed := false },
              { id := 1, isCandidate := false, revealed := false },
              { id := 2, isCandidate := true, revealed := false }],
    reducedMotion := true, observerCreated := false, observed := [],
    observeCalls := [] }

/-- The same page without reduced motion, after init: the observer exists
and both candidates are observed. -/
def revealActive : RevealState :=
  { elems := [{ id := 0, isCandidate := true, revealed := false },
              { id := 1, isCandidate := false, revealed := false },
              { id := 2, isCandidate := true, revealed := false }],
    reducedMotion := false, observerCreated := true, observed := [0, 2],
    observeCalls := [0, 2] }

/-! ## Helper lemmas about `setTheme` and `toggleTheme` -/

theorem setTheme_dataTheme (st : ThemeState) (theme : String) (save : Bool) :
    (setTheme st theme save).dataTheme = some theme := rfl

theorem setTheme_storageOk (st : ThemeState) (theme : String) (save : Bool) :
    (setTheme st theme save).storageOk = st.storageOk := rfl

theorem setTheme_storage_save (st : ThemeState) (theme : String)
    (h : st.storageOk = true) : (setTheme st theme true).storage = some theme := by
  simp [setTheme, h]

theorem setTheme_storage_nosave (st : ThemeState) (theme : String) :
    (setTheme st theme false).storage = st.storage := by
  simp [setTheme]

theorem themeInit_dataTheme (st : ThemeState) :
    (themeInit st).dataTheme =
      some (jsOrString (getSavedTheme st) (getSystemTheme st)) := rfl

theorem toggleTheme_dataTheme (st : ThemeState) :
    (toggleTheme st).dataTheme =
      some (if st.dataTheme = some "dark" then "light" else "dark") := by
  simp only [toggleTheme]
  exact setTheme_dataTheme st _ true

theorem toggleTheme_storage (st : ThemeState) (h : st.storageOk = true) :
    (toggleTheme st).storage =
      some (if st.dataTheme = some "dark" then "light" else "dark") := by
  simp only [toggleTheme]
  exact setTheme_storage_save st _ h

theorem toggleTheme_storageOk (st : ThemeState) :
    (toggleTheme st).storageOk = st.storageOk := by
  simp only [toggleTheme]
  exact setTheme_storageOk st _ true

theorem onSystemChange_of_truthy (st : ThemeState) (m : Bool)
    (h : jsTruthy (getSavedTheme st) = true) : onSystemChange st m = st := by
  simp [onSystemChange, h]

theorem onSystemChange_of_none (st : ThemeState) (m : Bool)
    (h : getSavedTheme st = none) :
    onSystemChange st m = setTheme st (if m then "dark" else "light") false := by
  simp [onSystemChange, h, jsTruthy]

theorem foldl_onSystemChange_fixed (s : ThemeState)
    (h : jsTruthy (getSavedTheme s) = true) :
    ∀ events : List Bool, events.foldl onSystemChange s = s := by
  intro events
  induction events with
  | nil => rfl
  | cons m ms ih =>
      rw [List.foldl_cons, onSystemChange_of_truthy s m h]
      exact ih

/-! ## Claim theorems: ThemeToggle -/

/-- C1: initial theme resolution at init follows the precedence persisted
value (if present) > system dark preference (`dark`) > default `light`; in
particular no persisted value with a dark system preference yields `dark`,
and a persisted `light` overrides any system preference. -/
theorem theme_init_precedence (st : ThemeState) :
    (∀ v, getSavedTheme st = some v → v ≠ "" → (themeInit st).dataTheme = some v) ∧
    (getSavedTheme st = none → (themeInit st).dataTheme = some (getSystemTheme st)) ∧
    (getSavedTheme st = none → st.systemDark = true →
      (themeInit st).dataTheme = some "dark") ∧
    (getSavedTheme st = some "light" → (themeInit st).dataTheme = some "light") := by
  refine ⟨?_, ?_, ?_, ?_⟩
  · intro v hv hne
    rw [themeInit_dataTheme, hv]
    simp [jsOrString, hne]
  · intro hnone
    rw [themeInit_dataTheme, hnone]
    rfl
  · intro hnone hdark
    rw [themeInit_dataTheme, hnone]
    simp [jsOrString, getSystemTheme, hdark]
  · intro hl
    rw [themeInit_dataTheme, hl]
    simp [jsOrString]

/-- C1 witness: with no persisted value and a dark system preference the
applied initial theme is `dark`, and persisted `light` overrides a dark
system preference. -/
theorem theme_init_precedence_witness :
    (themeInit stFreshDark).dataTheme = some "dark" ∧
    (themeInit stLight).dataTheme = some "light" :=
  ⟨(theme_init_precedence stFreshDark).2.2.1 rfl rfl,
   (theme_init_precedence stLight).2.2.2 rfl⟩

/-- C2: after init, a system color-scheme change event is ignored when a
persisted preference exists; with no persisted preference the handler
applies the new system theme without writing storage; and after an
explicit toggle has persisted a choice, every sequence of change events
leaves the applied theme at the chosen value. -/
theorem system_change_respects_choice :
    (∀ st : ThemeState, ∀ m : Bool,
      (∃ v, getSavedTheme st = some v ∧ v ≠ "") → onSystemChange st m = st) ∧
    (∀ st : ThemeState, ∀ m : Bool, getSavedTheme st = none →
      (onSystemChange st m).dataTheme = some (if m then "dark" else "light") ∧
      (onSystemChange st m).storage = st.storage) ∧
    (∀ st : ThemeState, st.storageOk = true → ∀ events : List Bool,
      (events.foldl onSystemChange (toggleTheme st)).dataTheme =
        (toggleTheme st).dataTheme) := by
  refine ⟨?_, ?_, ?_⟩
  · rintro st m ⟨v, hv, hne⟩
    apply onSystemChange_of_truthy
    rw [hv]
    simpa [jsTruthy] using hne
  · intro st m hnone
    rw [onSystemChange_of_none st m hnone]
    exact ⟨setTheme_dataTheme st _ false, setTheme_storage_nosave st _⟩
  · intro st hok events
    have h1 : (toggleTheme st).storageOk = true := by
      rw [toggleTheme_storageOk]; exact hok
    have h2 : (toggleTheme st).storage =
        some (if st.dataTheme = some "dark" then "light" else "dark") :=
      toggleTheme_storage st hok
    have h3 : jsTruthy (getSavedTheme (toggleTheme st)) = true := by
      rw [getSavedTheme, h1, if_pos rfl, h2]
      simp [jsTruthy]
      split <;> simp
    rw [foldl_onSystemChange_fixed _ h3 events]

/-- C2 witness: with persisted `light` an event is ignored; with nothing
persisted a light-preference event applies `light`; after one toggle a
whole sequence of events leaves the applied theme unchanged. -/
theorem system_change_respects_choice_witness :
    onSystemChange stLight true = stLight ∧
    (onSystemChange stFreshDark false).dataTheme = some "light" ∧
    (List.foldl onSystemChange (toggleTheme stLight) [true, false, true]).dataTheme =
      (toggleTheme stLight).dataTheme :=
  ⟨system_change_respects_choice.1 stLight true ⟨"light", rfl, by decide⟩,
   (system_change_respects_choice.2.1 stFreshDark false rfl).1,
   system_change_respects_choice.2.2 stLight rfl [true, false, true]⟩

/-- C5 counterexample: the persisted value `purple` is corrupted (neither
`light` nor `dark`), yet `savedTheme || systemTheme` applies it verbatim
instead of falling through to the dark system preference, contradicting
the claim that corruption is treated as absence. -/
theorem theme_init_corruption_counterexample :
    (themeInit stCorrupted).dataTheme = some "purple" ∧
    (themeInit stCorrupted).dataTheme ≠ some "dark" := by
  constructor
  · rfl
  · decide

/-- C5 (amended): an absent persisted value, an empty-string value, or a
storage read error is treated as no preference and initial resolution
falls through to the system preference (default light); the read is total
and never propagates an error. However a non-empty corrupted persisted
value is not treated as absence: it is applied verbatim. -/
theorem theme_init_absence (st : ThemeState) :
    (st.storageOk = false → (themeInit st).dataTheme = some (getSystemTheme st)) ∧
    (st.storage = none → (themeInit st).dataTheme = some (getSystemTheme st)) ∧
    (st.storage = some "" → (themeInit st).dataTheme = some (getSystemTheme st)) ∧
    (∀ v, getSavedTheme st = some v → v ≠ "" → (themeInit st).dataTheme = some v) := by
  refine ⟨?_, ?_, ?_, ?_⟩
  · intro h
    have hnone : getSavedTheme st = none := by simp [getSavedTheme, h]
    rw [themeInit_dataTheme, hnone]
    rfl
  · intro h
    have hnone : getSavedTheme st = none := by simp [getSavedTheme, h]
    rw [themeInit_dataTheme, hnone]
    rfl
  · intro h
    rw [themeInit_dataTheme]
    rcases Bool.eq_false_or_eq_true st.storageOk with hk | hk <;>
      simp [getSavedTheme, h, hk, jsOrString]
  · intro v hv hne
    rw [themeInit_dataTheme, hv]
    simp [jsOrString, hne]

/-- C5 amended witness: with storage unavailable and a dark system
preference the initial theme is `dark`; likewise with an empty-string
persisted value. -/
theorem theme_init_absence_witness :
    (themeInit { stFreshDark with storageOk := false }).dataTheme = some "dark" ∧
    (themeInit { stFreshDark with storage := some "" }).dataTheme = some "dark" :=
  ⟨(theme_init_absence _).1 rfl, (theme_init_absence _).2.2.1 rfl⟩

/-- C8: from an applied theme of `light` or `dark` with working storage,
calling toggleTheme twice returns the document root's theme attribute to
its value before the first call, and the value persisted after the second
call equals that final applied value. -/
theorem toggle_twice_roundtrip (st : ThemeState)
    (h1 : st.dataTheme = some "light" ∨ st.dataTheme = some "dark")
    (h2 : st.storageOk = true) :
    (toggleTheme (toggleTheme st)).dataTheme = st.dataTheme ∧
    (toggleTheme (toggleTheme st)).storage =
      (toggleTheme (toggleTheme st)).dataTheme := by
  have hok1 : (toggleTheme st).storageOk = true := by
    rw [toggleTheme_storageOk]; exact h2
  rcases h1 with h | h
  · have d1 : (toggleTheme st).dataTheme = some "dark" := by
      rw [toggleTheme_dataTheme, h]; decide
    refine ⟨?_, ?_⟩
    · rw [toggleTheme_dataTheme, d1, h]; decide
    · rw [toggleTheme_storage _ hok1, d1, toggleTheme_dataTheme, d1]
  · have d1 : (toggleTheme st).dataTheme = some "light" := by
      rw [toggleTheme_dataTheme, h]; decide
    refine ⟨?_, ?_⟩
    · rw [toggleTheme_dataTheme, d1, h]; decide
    · rw [toggleTheme_storage _ hok1, d1, toggleTheme_dataTheme, d1]

/-- C8 witness: two toggles from applied `light` return the attribute to
`light` and persist `light`. -/
theorem toggle_twice_roundtrip_witness :
    (toggleTheme (toggleTheme stLight)).dataTheme = stLight.dataTheme ∧
    (toggleTheme (toggleTheme stLight)).storage =
      (toggleTheme (toggleTheme stLight)).dataTheme :=
  toggle_twice_roundtrip stLight (Or.inl rfl) rfl

/-- C10: toggleTheme is total over arbitrary current values of the theme
attribute: every current value other than exactly `dark` (absent attribute
and unrecognized strings included) applies and persists `dark`, and only
the exact value `dark` flips to `light`. -/
theorem toggle_total (st : ThemeState) (h : st.storageOk = true) :
    (st.dataTheme ≠ some "dark" →
      (toggleTheme st).dataTheme = some "dark" ∧
      (toggleTheme st).storage = some "dark") ∧
    (st.dataTheme = some "dark" →
      (toggleTheme st).dataTheme = some "light" ∧
      (toggleTheme st).storage = some "light") := by
  constructor
  · intro hne
    rw [toggleTheme_dataTheme, toggleTheme_storage st h, if_neg hne]
    exact ⟨rfl, rfl⟩
  · intro he
    rw [toggleTheme_dataTheme, toggleTheme_storage st h, if_pos he]
    exact ⟨rfl, rfl⟩

/-- C10 witness: from the unrecognized attribute value `purple`, one
toggle applies and persists `dark`; from `dark` it applies and persists
`light`. -/
theorem toggle_total_witness :
    ((toggleTheme { stFreshDark with dataTheme := some "purple" }).dataTheme =
        some "dark" ∧
      (toggleTheme { stFreshDark with dataTheme := some "purple" }).storage =
        some "dark") ∧
    ((toggleTheme { stFreshDark with dataTheme := some "dark" }).dataTheme =
        some "light" ∧
      (toggleTheme { stFreshDark with dataTheme := some "dark" }).storage =
        some "light") :=
  ⟨(toggle_total _ rfl).1 (by decide), (toggle_total _ rfl).2 rfl⟩

/-! ## Helper lemmas about `handleClick` -/

theorem handleClick_none (query : String → Except Unit (Option Elem))
    (st : PageState) : handleClick query none st = Except.ok st := rfl

theorem handleClick_empty (query : String → Except Unit (Option Elem))
    (st : PageState) : handleClick query (some "") st = Except.ok st := rfl

theorem handleClick_hash (query : String → Except Unit (Option Elem))
    (st : PageState) : handleClick query (some "#") st = Except.ok st := rfl

theorem handleClick_run (query : String → Except Unit (Option Elem))
    (s : String) (st : PageState) (he : s ≠ "") (hh : s ≠ "#") :
    handleClick query (some s) st =
      (match query s with
       | Except.error e => Except.error e
       | Except.ok none => Except.ok st
       | Except.ok (some target) =>
           Except.ok { st with
             defaultPrevented := true,
             scrollCalls := st.scrollCalls ++
               [{ top := target.top + st.pageYOffset - HEADER_OFFSET,
                  smooth := true }],
             fragment := some s }) := by
  have h1 : jsTruthy (some s) = true := by simp [jsTruthy, he]
  have h2 : ¬ (some s = (some "#" : Option String)) := by simpa using hh
  simp [handleClick, h1, h2]

/-! ## Claim theorems: SmoothScroll -/

/-- C3: for every bound anchor click, a fragment matching no element
changes nothing (no scroll call, no history change, default not
prevented), as do the empty and bare `#` guards; a fragment matching an
element prevents default, issues exactly one smooth-scroll call to
(target top offset + current vertical scroll) minus 80, and updates the
address fragment to the link's fragment. -/
theorem anchor_click_behavior (query : String → Except Unit (Option Elem))
    (href : Option String) (st : PageState) :
    (jsTruthy href = false → handleClick query href st = Except.ok st) ∧
    (href = some "#" → handleClick query href st = Except.ok st) ∧
    (∀ s, href = some s → s ≠ "" → s ≠ "#" → query s = Except.ok none →
      handleClick query href st = Except.ok st) ∧
    (∀ s t, href = some s → s ≠ "" → s ≠ "#" → query s = Except.ok (some t) →
      handleClick query href st = Except.ok
        { st with
          defaultPrevented := true,
          scrollCalls := st.scrollCalls ++
            [{ top := t.top + st.pageYOffset - HEADER_OFFSET, smooth := true }],
          fragment := some s }) := by
  refine ⟨?_, ?_, ?_, ?_⟩
  · intro h
    simp [handleClick, h]
  · intro h
    subst h
    exact handleClick_hash query st
  · intro s hs he hh hq
    subst hs
    rw [handleClick_run query s st he hh, hq]
  · intro s t hs he hh hq
    subst hs
    rw [handleClick_run query s st he hh, hq]

/-- C3 witness: on the concrete page, clicking `#nonexistent` changes
nothing, and clicking `#section2` (element at top offset 500, scroll 100)
prevents default, logs the single smooth scroll to 520 and sets the
fragment. -/
theorem anchor_click_behavior_witness :
    handleClick pageQuery (some "#nonexistent") page0 = Except.ok page0 ∧
    handleClick pageQuery (some "#section2") page0 = Except.ok
      { pageYOffset := 100, fragment := some "#section2",
        scrollCalls := [{ top := 520, smooth := true }],
        defaultPrevented := true } :=
  ⟨(anchor_click_behavior pageQuery (some "#nonexistent") page0).2.2.1
      "#nonexistent" rfl (by decide) (by decide) rfl,
   (anchor_click_behavior pageQuery (some "#section2") page0).2.2.2
      "#section2" { top := 500 } rfl (by decide) (by decide) rfl⟩

/-- C4 counterexample: on the concrete page, clicking a link whose
fragment `#1` is a malformed selector makes the handler throw (the
selector query's exception propagates), so the handler is not a no-op and
not throw-free. -/
theorem anchor_click_throws_counterexample :
    handleClick pageQuery (some "#1") page0 = Except.error () := rfl

/-- C4 (amended): the click handler never throws provided the underlying
selector query does not throw on the link's fragment; when the fragment is
a malformed selector the query's exception propagates out of the handler
(there is no try/catch around `document.querySelector`). -/
theorem anchor_click_no_throw (query : String → Except Unit (Option Elem))
    (href : Option String) (st : PageState)
    (h : ∀ s, href = some s → query s ≠ Except.error ()) :
    ∃ st2, handleClick query href st = Except.ok st2 := by
  rcases href with _ | s
  · exact ⟨st, handleClick_none query st⟩
  · by_cases he : s = ""
    · subst he
      exact ⟨st, handleClick_empty query st⟩
    · by_cases hh : s = "#"
      · subst hh
        exact ⟨st, handleClick_hash query st⟩
      · rw [handleClick_run query s st he hh]
        rcases hq : query s with e | r
        · cases e
          exact absurd hq (h s rfl)
        · rcases r with _ | t
          · exact ⟨st, rfl⟩
          · exact ⟨_, rfl⟩

/-- C4 amended witness: on the concrete page, a click on the valid but
unmatched fragment `#nonexistent` completes without throwing. -/
theorem anchor_click_no_throw_witness :
    ∃ st2, handleClick pageQuery (some "#nonexistent") page0 = Except.ok st2 :=
  anchor_click_no_throw pageQuery (some "#nonexistent") page0
    (by
      intro s hs hbad
      injection hs with h9
      subst h9
      exact Except.noConfusion
        (show Except.ok (none : Option Elem) = Except.error () from hbad))

/-! ## Helper lemmas about `ScrollReveal` -/

theorem isRevealed_iff (st : RevealState) (i : Nat) :
    isRevealed st i = true ↔ ∃ e ∈ st.elems, e.id = i ∧ e.revealed = true := by
  simp [isRevealed, List.any_eq_true]

theorem revealMap_id (t : Nat) (e : RElem) :
    (if e.id = t then { e with revealed := true } else e).id = e.id := by
  split <;> rfl

theorem revealMap_revealed_of (t : Nat) (e : RElem) (h : e.revealed = true) :
    (if e.id = t then { e with revealed := true } else e).revealed = true := by
  split
  · rfl
  · exact h

theorem revealMap_revealed_self (t : Nat) (e : RElem) (h : e.id = t) :
    (if e.id = t then { e with revealed := true } else e).revealed = true := by
  rw [if_pos h]

theorem revealStep_not_intersecting (st : RevealState) (entry : IEntry)
    (h : entry.isIntersecting = false) : revealStep st entry = st := by
  simp [revealStep, h]

theorem revealStep_intersecting_elems (st : RevealState) (entry : IEntry)
    (h : entry.isIntersecting = true) :
    (revealStep st entry).elems = st.elems.map
      (fun el => if el.id = entry.targetId then { el with revealed := true } else el) := by
  simp [revealStep, h]

theorem revealStep_intersecting_observed (st : RevealState) (entry : IEntry)
    (h : entry.isIntersecting = true) :
    (revealStep st entry).observed =
      st.observed.filter (fun i => i ≠ entry.targetId) := by
  simp [revealStep, h]

theorem revealStep_mono (st : RevealState) (entry : IEntry) (i : Nat)
    (h : isRevealed st i = true) : isRevealed (revealStep st entry) i = true := by
  rw [isRevealed_iff] at h ⊢
  obtain ⟨e, he, hid, hrev⟩ := h
  by_cases hint : entry.isIntersecting = true
  · rw [revealStep_intersecting_elems st entry hint]
    exact ⟨_, List.mem_map_of_mem _ he,
      by rw [revealMap_id]; exact hid, revealMap_revealed_of _ _ hrev⟩
  · rw [revealStep_not_intersecting st entry (by simpa using hint)]
    exact ⟨e, he, hid, hrev⟩

theorem revealStep_observed_subset (st : RevealState) (entry : IEntry)
    (i : Nat) (hi : i ∈ (revealStep st entry).observed) : i ∈ st.observed := by
  by_cases hint : entry.isIntersecting = true
  · rw [revealStep_intersecting_observed st entry hint] at hi
    exact List.mem_of_mem_filter hi
  · rw [revealStep_not_intersecting st entry (by simpa using hint)] at hi
    exact hi

theorem revealStep_target_not_observed (st : RevealState) (entry : IEntry)
    (h : entry.isIntersecting = true) :
    entry.targetId ∉ (revealStep st entry).observed := by
  rw [revealStep_intersecting_observed st entry h]
  intro hmem
  have hp := List.of_mem_filter hmem
  simp at hp

theorem revealStep_id_present (st : RevealState) (entry : IEntry) (i : Nat)
    (h : ∃ e ∈ st.elems, e.id = i) :
    ∃ e ∈ (revealStep st entry).elems, e.id = i := by
  obtain ⟨e, he, hid⟩ := h
  by_cases hint : entry.isIntersecting = true
  · rw [revealStep_intersecting_elems st entry hint]
    exact ⟨_, List.mem_map_of_mem _ he, by rw [revealMap_id]; exact hid⟩
  · rw [revealStep_not_intersecting st entry (by simpa using hint)]
    exact ⟨e, he, hid⟩

theorem handleIntersection_cons (st : RevealState) (e : IEntry)
    (es : List IEntry) :
    handleIntersection st (e :: es) = handleIntersection (revealStep st e) es := rfl

theorem handleIntersection_mono (entries : List IEntry) (st : RevealState)
    (i : Nat) (h : isRevealed st i = true) :
    isRevealed (handleIntersection st entries) i = true := by
  induction entries generalizing st with
  | nil => exact h
  | cons e es ih =>
      rw [handleIntersection_cons]
      exact ih _ (revealStep_mono st e i h)

theorem handleIntersection_observed_subset (entries : List IEntry)
    (st : RevealState) (i : Nat)
    (hi : i ∈ (handleIntersection st entries).observed) : i ∈ st.observed := by
  induction entries generalizing st with
  | nil => exact hi
  | cons e es ih =>
      rw [handleIntersection_cons] at hi
      exact revealStep_observed_subset st e i (ih _ hi)

theorem handleIntersection_processes (entries : List IEntry) (st : RevealState)
    (entry : IEntry) (hmem : entry ∈ entries) (hint : entry.isIntersecting = true)
    (hp : ∃ e ∈ st.elems, e.id = entry.targetId) :
    isRevealed (handleIntersection st entries) entry.targetId = true ∧
    entry.targetId ∉ (handleIntersection st entries).observed := by
  induction entries generalizing st with
  | nil => cases hmem
  | cons e es ih =>
      rw [handleIntersection_cons]
      rcases List.mem_cons.mp hmem with rfl | hmem2
      · constructor
        · refine handleIntersection_mono es _ _ ?_
          rw [isRevealed_iff]
          obtain ⟨a, ha, hid⟩ := hp
          rw [revealStep_intersecting_elems st entry hint]
          exact ⟨_, List.mem_map_of_mem _ ha,
            by rw [revealMap_id]; exact hid, revealMap_revealed_self _ _ hid⟩
        · intro hin
          exact revealStep_target_not_observed st entry hint
            (handleIntersection_observed_subset es _ _ hin)
      · exact ih _ hmem2 (revealStep_id_present st e _ hp)

/-! ## Claim theorems: ScrollReveal -/

/-- C6: with the reduced-motion preference active at init, every candidate
element is marked revealed synchronously, no intersection observer is
created and zero observation calls occur (observer state untouched). -/
theorem reveal_reduced_motion (st : RevealState)
    (hm : st.reducedMotion = true)
    (hobs : st.observerCreated = false) (hcalls : st.observeCalls = []) :
    (∀ e ∈ (scrollRevealInit st).elems, e.isCandidate = true → e.revealed = true) ∧
    (scrollRevealInit st).observerCreated = false ∧
    (scrollRevealInit st).observeCalls = [] ∧
    (scrollRevealInit st).observed = st.observed := by
  have h1 : (scrollRevealInit st).elems =
      st.elems.map (fun e => if e.isCandidate then { e with revealed := true } else e) := by
    simp [scrollRevealInit, hm]
  have h2 : (scrollRevealInit st).observerCreated = st.observerCreated := by
    simp [scrollRevealInit, hm]
  have h3 : (scrollRevealInit st).observeCalls = st.observeCalls := by
    simp [scrollRevealInit, hm]
  have h4 : (scrollRevealInit st).observed = st.observed := by
    simp [scrollRevealInit, hm]
  refine ⟨?_, by rw [h2, hobs], by rw [h3, hcalls], h4⟩
  intro e he hc
  rw [h1] at he
  simp only [List.mem_map] at he
  obtain ⟨a, ha, rfl⟩ := he
  by_cases hca : a.isCandidate = true
  · simp [hca]
  · simp only [hca, if_false] at hc
    exact absurd hc hca

/-- C6 witness: on the concrete reduced-motion page, init leaves observer
state untouched (none created, zero observe calls) and reveals the
candidate element with id 0. -/
theorem reveal_reduced_motion_witness :
    (scrollRevealInit revealPage).observerCreated = false ∧
    (scrollRevealInit revealPage).observeCalls = [] ∧
    ({ id := 0, isCandidate := true, revealed := true } : RElem).revealed = true :=
  ⟨(reveal_reduced_motion revealPage rfl rfl rfl).2.1,
   (reveal_reduced_motion revealPage rfl rfl rfl).2.2.1,
   (reveal_reduced_motion revealPage rfl rfl rfl).1 _ (by decide) rfl⟩

/-- C7: the reveal transition is one-shot per element: every entry of a
batch reported intersecting has its element marked revealed and removed
from observation by the batch handler (so no further intersection events
are processed for it), and an already revealed element is never
un-revealed by any batch. -/
theorem reveal_one_shot (entries : List IEntry) (st : RevealState) :
    (∀ entry ∈ entries, entry.isIntersecting = true →
      (∃ e ∈ st.elems, e.id = entry.targetId) →
      isRevealed (handleIntersection st entries) entry.targetId = true ∧
      entry.targetId ∉ (handleIntersection st entries).observed) ∧
    (∀ i, isRevealed st i = true →
      isRevealed (handleIntersection st entries) i = true) :=
  ⟨fun entry hmem hint hp => handleIntersection_processes entries st entry hmem hint hp,
   fun i h => handleIntersection_mono entries st i h⟩

/-- C7 witness: a batch with an intersecting entry for element 0 marks it
revealed and unobserves it on the concrete active page. -/
theorem reveal_one_shot_witness :
    isRevealed (handleIntersection revealActive
      [{ targetId := 0, isIntersecting := true }]) 0 = true ∧
    0 ∉ (handleIntersection revealActive
      [{ targetId := 0, isIntersecting := true }]).observed :=
  (reveal_one_shot [{ targetId := 0, isIntersecting := true }] revealActive).1
    { targetId := 0, isIntersecting := true } (by decide) rfl
    ⟨{ id := 0, isCandidate := true, revealed := false }, by decide, rfl⟩

/-! ## Claim theorems: MobileMenu -/

/-- C9 counterexample: from the closed state with the expanded attribute
never set, a click outside both the menu and the toggle is not a no-op:
`closeMenu` runs unconditionally and writes `aria-expanded = "false"`. -/
theorem menu_outside_click_counterexample :
    onDocumentClick { isOpen := false, ariaExpanded := none } false false ≠
      { isOpen := false, ariaExpanded := none } := by
  decide

/-- C9 (amended): a click outside both the menu and its toggle while the
menu is closed leaves it closed and forces the expanded attribute to
`"false"`; that attribute write is the only effect, so when the attribute
already reads `"false"` the handler changes nothing at all. -/
theorem menu_outside_click_closed (st : MenuState) (h : st.isOpen = false) :
    (onDocumentClick st false false).isOpen = false ∧
    (onDocumentClick st false false).ariaExpanded = some "false" ∧
    (st.ariaExpanded = some "false" → onDocumentClick st false false = st) := by
  refine ⟨rfl, rfl, ?_⟩
  intro ha
  show closeMenu st = st
  cases st with
  | mk o a =>
      subst h
      subst ha
      rfl

/-- C9 amended witness: with the attribute already `"false"`, an outside
click while closed changes nothing. -/
theorem menu_outside_click_closed_witness :
    (onDocumentClick { isOpen := false, ariaExpanded := some "false" }
      false false).isOpen = false ∧
    onDocumentClick { isOpen := false, ariaExpanded := some "false" } false false =
      { isOpen := false, ariaExpanded := some "false" } :=
  ⟨(menu_outside_click_closed _ rfl).1, (menu_outside_click_closed _ rfl).2.2 rfl⟩

end MVPfolio
